import Mathlib

/-!
# Verification of the SaleOrderForecast forecasting engine

Shallow embedding of the forecasting engine of the SaleOrderForecast
repository (backend/app/services/forecast_service.py together with the
pydantic models of backend/app/schemas/forecast.py), and proofs of the
specified properties.

Modelling conventions:
* Calendar dates are modelled as integers (days since an arbitrary epoch);
  pandas date_range with daily frequency becomes the closed integer
  interval between the two endpoint days.
* IEEE-754 double arithmetic is modelled by the type PF below: a rational
  number for the finite values, plus a single absorbing element PF.nan for
  the non-finite outcomes (NaN / infinities).  In this code base the only
  operation that can leave the finite range is the slope division when its
  denominator is zero, which is then exactly the indeterminate form 0/0
  (NaN in numpy), so one non-finite element is a faithful model.
* numpy's sqrt (inside np.std) is irrational in general, so its result is
  modelled by the computable rational approximation ratSqrt; the proofs
  rely only on its nonnegativity, never on its numerical value.
* The pandas DataFrame holding the historical rows is modelled as a list
  of records; the in-place creation of the derived "days" column
  (forecast_service.py line 148) is modelled by explicit state passing:
  each engine entry point returns the frame as it is left after the call.
* id / created_at of a response are produced from datetime.now() and
  uuid4; these two effects are modelled as extra explicit inputs (now,
  uid) of the response-building functions.
-/

/-- Model of an IEEE-754 double as used by the engine: either a finite
value (an exact rational) or the absorbing non-finite element nan. -/
inductive PF where
  | fin (q : ℚ)
  | nan
deriving DecidableEq, Repr

namespace PF

/-- Float addition: finite on finite operands, nan-absorbing. -/
def add : PF → PF → PF
  | fin a, fin b => fin (a + b)
  | _, _ => nan

/-- Float subtraction: finite on finite operands, nan-absorbing. -/
def sub : PF → PF → PF
  | fin a, fin b => fin (a - b)
  | _, _ => nan

/-- Float multiplication: finite on finite operands, nan-absorbing.
(nan * 0 is NaN in IEEE-754, which the absorbing equation matches.) -/
def mul : PF → PF → PF
  | fin a, fin b => fin (a * b)
  | _, _ => nan

/-- Float division.  A zero denominator leaves the finite range (in this
code base the only zero-denominator division is 0/0, i.e. NaN). -/
def div : PF → PF → PF
  | fin a, fin b => if b = 0 then nan else fin (a / b)
  | _, _ => nan

end PF

/-- Computable rational stand-in for the float square root of a
nonnegative rational (sqrt (n/d) = sqrt (n*d) / d, with Nat.sqrt for the
integer root).  Only its nonnegativity and finiteness are used in proofs. -/
def ratSqrt (q : ℚ) : ℚ :=
  (Nat.sqrt (q.num.toNat * q.den) : ℚ) / (q.den : ℚ)

/-- Float square root over PF: nan below zero and on nan. -/
def PF.sqrtPF : PF → PF
  | PF.fin q => if q < 0 then PF.nan else PF.fin (ratSqrt q)
  | PF.nan => PF.nan

/-- Sum of a list of floats (np.sum / the reduction inside np.mean). -/
def pfSum (l : List PF) : PF := l.foldr PF.add (PF.fin 0)

/-- np.mean of a float array: sum divided by length. -/
def pfMean (l : List PF) : PF := PF.div (pfSum l) (PF.fin l.length)

/-- np.std of a float array: population standard deviation, i.e. the
square root of the mean of the squared deviations from the mean. -/
def pfStd (l : List PF) : PF :=
  let m := pfMean l
  PF.sqrtPF (pfMean (l.map fun r => PF.mul (PF.sub r m) (PF.sub r m)))

/-- One row of the historical-data frame handed to the engine
(columns date, value, sales_rep_id, category as produced by the data
source; days is the derived column the advanced path adds in place,
absent on entry). -/
structure HistoricalPoint where
  date : Int
  value : ℚ
  sales_rep_id : Option Int := none
  category : Option String := none
  days : Option Int := none
deriving DecidableEq, Repr

/-- Parameters for generating a forecast
(backend/app/schemas/forecast.py, class ForecastParameters).
forecast_type is declared as a plain str field with default "basic". -/
structure ForecastParameters where
  start_date : Int
  end_date : Int
  sales_rep_id : Option Int := none
  category : Option String := none
  forecast_type : String := "basic"
  include_historical : Bool := false
  confidence_level : Option ℚ := none
deriving DecidableEq, Repr

/-- A single point of a forecast
(backend/app/schemas/forecast.py, class ForecastDataPoint). -/
structure ForecastDataPoint where
  date : Int
  value : PF
  confidence_lower : Option PF := none
  confidence_upper : Option PF := none
  is_actual : Bool := false
deriving DecidableEq, Repr

/-- Validation failure pydantic would raise on malformed input. -/
inductive ValidationError where
  | invalid (msg : String)
deriving DecidableEq, Repr

/-- Pydantic construction of ForecastParameters
(backend/app/schemas/forecast.py lines 15-42).  The class declares its
fields with no range constraints, no field_validator and no
model_validator, so beyond type coercion (already guaranteed here by the
argument types) pydantic accepts every input: construction always
succeeds. -/
def mkForecastParameters (start_date end_date : Int) (sales_rep_id : Option Int)
    (category : Option String) (forecast_type : String)
    (include_historical : Bool) (confidence_level : Option ℚ) :
    Except ValidationError ForecastParameters :=
  Except.ok
    { start_date := start_date, end_date := end_date,
      sales_rep_id := sales_rep_id, category := category,
      forecast_type := forecast_type, include_historical := include_historical,
      confidence_level := confidence_level }

/-- pd.date_range(start, end) with daily frequency: the closed interval
of days from start to end, empty when end < start. -/
def dateRange (s e : Int) : List Int :=
  (List.range (e - s + 1).toNat).map fun (i : Nat) => s + (i : Int)

/-- The constant value the basic forecast projects: 0.0 for an empty
frame (np.zeros), otherwise the mean of the value column
(forecast_service.py lines 94-100). -/
def basicForecastValue (hist : List HistoricalPoint) : PF :=
  if hist.isEmpty then PF.fin 0
  else PF.div (PF.fin (hist.map (·.value)).sum) (PF.fin hist.length)

/-- The data point the basic forecast emits for day d
(forecast_service.py lines 104-111). -/
def basicPoint (hist : List HistoricalPoint) (d : Int) : ForecastDataPoint :=
  { date := d, value := basicForecastValue hist, is_actual := false }

/-- Data points of the basic forecast (_generate_basic_forecast,
forecast_service.py lines 79-126): the constant basicForecastValue on
every day of the requested range. -/
def generate_basic_forecast (hist : List HistoricalPoint)
    (params : ForecastParameters) : List ForecastDataPoint :=
  (dateRange params.start_date params.end_date).map (basicPoint hist)

/-- The basic path never writes to the historical frame; with the frame
state made explicit it returns it unchanged. -/
def generate_basic_forecast_st (hist : List HistoricalPoint)
    (params : ForecastParameters) :
    List ForecastDataPoint × List HistoricalPoint :=
  (generate_basic_forecast hist params, hist)

namespace ForecastService

/-- historical_data['date'].min(): the earliest date in the frame
(only evaluated on frames of at least 5 rows). -/
def minHistDate (hist : List HistoricalPoint) : Int :=
  match hist with
  | [] => 0
  | h :: t => t.foldl (fun m r => min m r.date) h.date

/-- forecast_service.py line 148: the in-place creation of the derived
days column, days = (date - date.min()).dt.days, on every row of the
frame the caller passed in. -/
def addDaysColumn (hist : List HistoricalPoint) : List HistoricalPoint :=
  hist.map fun r => { r with days := some (r.date - minHistDate hist) }

/-- X = historical_data['days'].values (line 151), read back from the
freshly written days column. -/
def regressionX (hist : List HistoricalPoint) : List ℚ :=
  (addDaysColumn hist).map fun r => ((r.days.getD 0 : Int) : ℚ)

/-- y = historical_data['value'].values (line 152). -/
def regressionY (hist : List HistoricalPoint) : List ℚ :=
  hist.map (·.value)

/-- mean_x = np.mean(X) (line 155); the branch guarantees at least 5
rows, so the division by the length is by a nonzero finite number and is
modelled directly in ℚ. -/
def meanX (hist : List HistoricalPoint) : ℚ :=
  (regressionX hist).sum / ((regressionX hist).length : ℚ)

/-- mean_y = np.mean(y) (line 156). -/
def meanY (hist : List HistoricalPoint) : ℚ :=
  (regressionY hist).sum / ((regressionY hist).length : ℚ)

/-- np.sum((X - mean_x) * (y - mean_y)), the slope numerator (line 157).
X is the (n,1) column from line 151's reshape(-1, 1) while y has shape
(n,), so the product broadcasts to the (n,n) outer matrix of deviation
products, and summing it factors into
(sum of x deviations) * (sum of y deviations).  With exact arithmetic
each factor is 0 (deviations from a mean sum to zero), so the fitted
slope the program uses is 0 whenever the denominator is nonzero: the
advanced path effectively projects the historical mean, not a trend. -/
def slopeNum (hist : List HistoricalPoint) : ℚ :=
  ((regressionX hist).map fun x => x - meanX hist).sum
    * ((regressionY hist).map fun y => y - meanY hist).sum

/-- np.sum((X - mean_x) ** 2), the slope denominator (line 157). -/
def slopeDen (hist : List HistoricalPoint) : ℚ :=
  ((regressionX hist).map fun x => (x - meanX hist) ^ 2).sum

/-- slope = numerator / denominator (line 157); the float division is
NaN (0/0) exactly when all historical dates coincide. -/
def slope (hist : List HistoricalPoint) : PF :=
  PF.div (PF.fin (slopeNum hist)) (PF.fin (slopeDen hist))

/-- intercept = mean_y - slope * mean_x (line 158). -/
def intercept (hist : List HistoricalPoint) : PF :=
  PF.sub (PF.fin (meanY hist)) (PF.mul (slope hist) (PF.fin (meanX hist)))

/-- The projected value for day d: intercept + slope * (d - min date)
(lines 161-162; the forecast day offsets are taken from the unchanged
date column, so the i-th forecast value depends only on the i-th day). -/
def advForecastValue (hist : List HistoricalPoint) (d : Int) : PF :=
  PF.add (intercept hist) (PF.mul (slope hist) (PF.fin ((d - minHistDate hist : Int) : ℚ)))

/-- residuals = y - (intercept + slope * X) (line 170), elementwise. -/
def residuals (hist : List HistoricalPoint) : List PF :=
  ((regressionX hist).zip (regressionY hist)).map
    fun p => PF.sub (PF.fin p.2) (PF.add (intercept hist) (PF.mul (slope hist) (PF.fin p.1)))

/-- std_error = np.std(residuals) (line 171). -/
def stdError (hist : List HistoricalPoint) : PF :=
  pfStd (residuals hist)

/-- margin = z_score * std_error with z_score = 1.96 (lines 172-174). -/
def margin (hist : List HistoricalPoint) : PF :=
  PF.mul (PF.fin (49 / 25)) (stdError hist)

/-- Python truthiness of the guard "if params.confidence_level:"
(line 168): a float is truthy iff it is present and nonzero. -/
def confidenceRequested (params : ForecastParameters) : Bool :=
  match params.confidence_level with
  | some c => c ≠ 0
  | none => false

/-- One data point of the advanced forecast (lines 179-191): the
projected value, plus the uniform confidence band when the
confidence_level guard is truthy. -/
def advancedPoint (hist : List HistoricalPoint) (params : ForecastParameters)
    (d : Int) : ForecastDataPoint :=
  let v := advForecastValue hist d
  if confidenceRequested params then
    { date := d, value := v,
      confidence_lower := some (PF.sub v (margin hist)),
      confidence_upper := some (PF.add v (margin hist)),
      is_actual := false }
  else
    { date := d, value := v, is_actual := false }

/-- _generate_advanced_forecast (forecast_service.py lines 128-208) with
the frame state explicit: on fewer than 5 rows it returns the basic
forecast and leaves the frame untouched; otherwise it runs the
regression, having added the days column to the caller's frame in place
(line 148). -/
def generate_advanced_forecast (hist : List HistoricalPoint)
    (params : ForecastParameters) :
    List ForecastDataPoint × List HistoricalPoint :=
  if hist.isEmpty ∨ hist.length < 5 then
    (generate_basic_forecast hist params, hist)
  else
    ((dateRange params.start_date params.end_date).map (advancedPoint hist params),
      addDaysColumn hist)

/-- _generate_predictive_forecast (lines 210-223): a placeholder that
just calls the advanced forecast. -/
def generate_predictive_forecast (hist : List HistoricalPoint)
    (params : ForecastParameters) :
    List ForecastDataPoint × List HistoricalPoint :=
  generate_advanced_forecast hist params

end ForecastService

/-- The metadata dictionary of a response (model name, fitted
coefficients when linear regression ran, and the point count). -/
structure ForecastMetadata where
  model_type : String
  slope : Option PF := none
  intercept : Option PF := none
  data_points_count : Nat
deriving DecidableEq, Repr

/-- Complete forecast response
(backend/app/schemas/forecast.py, class ForecastResponse). -/
structure ForecastResponse where
  id : String
  created_at : Int
  parameters : ForecastParameters
  data_points : List ForecastDataPoint
  metadata : ForecastMetadata
deriving DecidableEq, Repr

namespace ForecastService

/-- The full basic response (lines 113-126).  now and uid stand for the
datetime.now() timestamp and the uuid4 fragment used for the
non-semantic bookkeeping fields id and created_at. -/
def basic_forecast_response (hist : List HistoricalPoint)
    (params : ForecastParameters) (now : Int) (uid : String) : ForecastResponse :=
  let pts := generate_basic_forecast hist params
  { id := "forecast-" ++ toString now ++ "-" ++ uid,
    created_at := now,
    parameters := params,
    data_points := pts,
    metadata := { model_type := "simple_moving_average",
                  data_points_count := pts.length } }

/-- The full advanced response (lines 143-145 and 193-208): the basic
response on fewer than 5 rows, otherwise the regression points with the
linear_regression metadata. -/
def advanced_forecast_response (hist : List HistoricalPoint)
    (params : ForecastParameters) (now : Int) (uid : String) : ForecastResponse :=
  if hist.isEmpty ∨ hist.length < 5 then
    basic_forecast_response hist params now uid
  else
    let pts := (generate_advanced_forecast hist params).1
    { id := "forecast-" ++ toString now ++ "-" ++ uid,
      created_at := now,
      parameters := params,
      data_points := pts,
      metadata := { model_type := "linear_regression",
                    slope := some (slope hist),
                    intercept := some (intercept hist),
                    data_points_count := pts.length } }

/-- The strategy dispatch of get_forecasts (forecast_service.py lines
47-56), applied to the frame the orchestrator fetched: basic, advanced,
predictive (identical to advanced), and the default fall-through to
basic on any other forecast_type string. -/
def get_forecasts (hist : List HistoricalPoint) (params : ForecastParameters)
    (now : Int) (uid : String) : ForecastResponse :=
  if params.forecast_type = "basic" then
    basic_forecast_response hist params now uid
  else if params.forecast_type = "advanced" then
    advanced_forecast_response hist params now uid
  else if params.forecast_type = "predictive" then
    advanced_forecast_response hist params now uid
  else
    basic_forecast_response hist params now uid

end ForecastService

/-- The four columns the data source produced, i.e. a row of the frame
without the derived days column. -/
def originalColumns (r : HistoricalPoint) : Int × ℚ × Option Int × Option String :=
  (r.date, r.value, r.sales_rep_id, r.category)

/-- Fixture: five rows on five consecutive distinct dates. -/
def histLinear5 : List HistoricalPoint :=
  [{ date := 0, value := 1 }, { date := 1, value := 2 }, { date := 2, value := 3 },
   { date := 3, value := 4 }, { date := 4, value := 5 }]

/-- Fixture: five rows that all carry the same date. -/
def histSameDate5 : List HistoricalPoint :=
  [{ date := 0, value := 1 }, { date := 0, value := 2 }, { date := 0, value := 3 },
   { date := 0, value := 4 }, { date := 0, value := 5 }]

/-- Fixture: a one-day forecast window with all optional fields at their
defaults. -/
def params00 : ForecastParameters := { start_date := 0, end_date := 0 }

/-- Fixture: the one-day window with confidence_level present but 0.0
(falsy in Python). -/
def params00conf0 : ForecastParameters :=
  { start_date := 0, end_date := 0, confidence_level := some 0 }

/-- Fixture: the one-day window with confidence_level 0.95. -/
def params00conf95 : ForecastParameters :=
  { start_date := 0, end_date := 0, confidence_level := some (19 / 20) }

example : dateRange 3 3 = [3] := by decide
example : dateRange 3 5 = [3, 4, 5] := by decide
example : dateRange 5 3 = [] := by decide
example :
    basicForecastValue [{ date := 0, value := 2 }, { date := 1, value := 4 }]
      = PF.fin 3 := by
  simp [basicForecastValue, PF.div]
  norm_num

/-- Sanity check of the broadcast semantics of line 157: on five rows
rising linearly (day offsets 0..4, values 1..5) the numerator's outer
sum is 0, so the program's fitted slope is exactly 0 — not the OLS
slope 1. -/
example : ForecastService.slope histLinear5 = PF.fin 0 := by
  norm_num [ForecastService.slope, ForecastService.slopeNum,
    ForecastService.slopeDen, ForecastService.meanX, ForecastService.meanY,
    ForecastService.regressionX, ForecastService.regressionY,
    ForecastService.addDaysColumn, ForecastService.minHistDate,
    histLinear5, PF.div]

/-- Consequently every projected value on that history is the
historical mean 3.0, for any requested day. -/
example : ForecastService.advForecastValue histLinear5 7 = PF.fin 3 := by
  norm_num [ForecastService.advForecastValue, ForecastService.intercept,
    ForecastService.slope, ForecastService.slopeNum, ForecastService.slopeDen,
    ForecastService.meanX, ForecastService.meanY, ForecastService.regressionX,
    ForecastService.regressionY, ForecastService.addDaysColumn,
    ForecastService.minHistDate, histLinear5, PF.div, PF.mul, PF.add, PF.sub]

/-! ## General lemmas about the embedding -/

theorem dateRange_length (s e : Int) (h : s ≤ e) :
    (dateRange s e).length = (e - s).toNat + 1 := by
  rw [dateRange, List.length_map, List.length_range]
  omega

theorem dateRange_getElem (s e : Int) (i : Nat) (hi : i < (dateRange s e).length) :
    (dateRange s e)[i] = s + i := by
  simp only [dateRange, List.getElem_map, List.getElem_range]

/-- Any per-day point list whose builder stamps the day into the date
field covers the closed range day by day. -/
theorem map_dateRange_shape (f : Int → ForecastDataPoint)
    (hf : ∀ d, (f d).date = d) (s e : Int) (h : s ≤ e) :
    ((dateRange s e).map f).length = (e - s).toNat + 1 ∧
      ∀ i, (hi : i < ((dateRange s e).map f).length) →
        (((dateRange s e).map f).get ⟨i, hi⟩).date = s + i := by
  constructor
  · rw [List.length_map, dateRange_length s e h]
  · intro i hi
    have hi' : i < (dateRange s e).length := by rw [List.length_map] at hi; exact hi
    simp only [List.get_eq_getElem, List.getElem_map]
    rw [hf, dateRange_getElem]

theorem basicPoint_date (hist : List HistoricalPoint) (d : Int) :
    (basicPoint hist d).date = d := rfl

theorem advancedPoint_date (hist : List HistoricalPoint)
    (params : ForecastParameters) (d : Int) :
    (ForecastService.advancedPoint hist params d).date = d := by
  unfold ForecastService.advancedPoint
  split <;> rfl

/-- Both branches of the advanced path emit one point per requested
day. -/
theorem advanced_points_eq_map (hist : List HistoricalPoint)
    (params : ForecastParameters) :
    (ForecastService.generate_advanced_forecast hist params).1
        = (dateRange params.start_date params.end_date).map (basicPoint hist) ∨
      (ForecastService.generate_advanced_forecast hist params).1
        = (dateRange params.start_date params.end_date).map
            (ForecastService.advancedPoint hist params) := by
  unfold ForecastService.generate_advanced_forecast
  split
  · exact Or.inl rfl
  · exact Or.inr rfl

theorem pfSum_map_fin (l : List ℚ) : pfSum (l.map PF.fin) = PF.fin l.sum := by
  induction l with
  | nil => rfl
  | cons x t ih => simp [pfSum, PF.add, List.map_cons] at ih ⊢; rw [ih]

theorem pfMean_map_fin (l : List ℚ) (h : l ≠ []) :
    pfMean (l.map PF.fin) = PF.fin (l.sum / (l.length : ℚ)) := by
  have hlen : ((l.length : ℚ)) ≠ 0 := by
    exact_mod_cast (Nat.cast_ne_zero (R := ℚ)).mpr (List.length_pos.mpr h).ne'
  simp [pfMean, pfSum_map_fin, PF.div, hlen]

theorem sum_sq_nonneg (l : List ℚ) (f : ℚ → ℚ) :
    0 ≤ (l.map fun x => (f x) ^ 2).sum := by
  induction l with
  | nil => simp
  | cons x t ih => simpa using add_nonneg (sq_nonneg (f x)) ih

/-- A sum of squares over a list vanishes only if every term does. -/
theorem sum_sq_eq_zero (l : List ℚ) (f : ℚ → ℚ)
    (h : (l.map fun x => (f x) ^ 2).sum = 0) : ∀ x ∈ l, f x = 0 := by
  induction l with
  | nil => simp
  | cons x t ih =>
    simp only [List.map_cons, List.sum_cons] at h
    have h1 : (f x) ^ 2 = 0 ∧ (t.map fun x => (f x) ^ 2).sum = 0 := by
      constructor
      · nlinarith [sq_nonneg (f x), sum_sq_nonneg t f]
      · nlinarith [sq_nonneg (f x), sum_sq_nonneg t f]
    intro y hy
    rcases List.mem_cons.mp hy with hy | hy
    · subst hy; exact pow_eq_zero_iff (n := 2) (by norm_num) |>.mp h1.1
    · exact ih h1.2 y hy

theorem ratSqrt_nonneg (q : ℚ) : 0 ≤ ratSqrt q :=
  div_nonneg (Nat.cast_nonneg _) (Nat.cast_nonneg _)

/-- The range-coverage property of a point list for a window: one point
per calendar day of the closed window, in order. -/
def coversRangeDaily (s e : Int) (pts : List ForecastDataPoint) : Prop :=
  pts.length = (e - s).toNat + 1 ∧
    ∀ i, (hi : i < pts.length) → (pts.get ⟨i, hi⟩).date = s + i

/-! ## Claim theorems -/

/-- C1: for every ForecastParameters with end_date >= start_date, each
forecast path (basic, advanced, predictive) returns data_points of
length (end_date - start_date).days + 1 whose i-th point is dated
start_date + i days; in particular a one-day window yields one point. -/
theorem C1_all_paths_cover_requested_range (hist : List HistoricalPoint)
    (params : ForecastParameters)
    (h : params.start_date ≤ params.end_date) :
    coversRangeDaily params.start_date params.end_date
        (generate_basic_forecast hist params) ∧
      coversRangeDaily params.start_date params.end_date
        (ForecastService.generate_advanced_forecast hist params).1 ∧
      coversRangeDaily params.start_date params.end_date
        (ForecastService.generate_predictive_forecast hist params).1 := by
  have hb : coversRangeDaily params.start_date params.end_date
      (generate_basic_forecast hist params) := by
    rw [coversRangeDaily, generate_basic_forecast]
    exact map_dateRange_shape _ (basicPoint_date hist) _ _ h
  have ha : coversRangeDaily params.start_date params.end_date
      (ForecastService.generate_advanced_forecast hist params).1 := by
    rcases advanced_points_eq_map hist params with hm | hm
    · rw [coversRangeDaily, hm]
      exact map_dateRange_shape _ (basicPoint_date hist) _ _ h
    · rw [coversRangeDaily, hm]
      exact map_dateRange_shape _ (advancedPoint_date hist params) _ _ h
  exact ⟨hb, ha, ha⟩

/-- Witness for C1 at the one-day window with empty history. -/
theorem C1_witness :
    params00.start_date ≤ params00.end_date ∧
      (coversRangeDaily params00.start_date params00.end_date
          (generate_basic_forecast [] params00) ∧
        coversRangeDaily params00.start_date params00.end_date
          (ForecastService.generate_advanced_forecast [] params00).1 ∧
        coversRangeDaily params00.start_date params00.end_date
          (ForecastService.generate_predictive_forecast [] params00).1) :=
  ⟨by decide, C1_all_paths_cover_requested_range [] params00 (by decide)⟩

/-- C5: with fewer than 5 historical rows (the empty frame included)
the advanced path returns exactly the basic path's data points, and no
error is raised (the function is total). -/
theorem C5_advanced_small_history_is_basic (hist : List HistoricalPoint)
    (params : ForecastParameters) (h : hist.length < 5) :
    (ForecastService.generate_advanced_forecast hist params).1
      = generate_basic_forecast hist params := by
  rw [ForecastService.generate_advanced_forecast, if_pos (Or.inr h)]

/-- Witness for C5 on a one-row history. -/
theorem C5_witness :
    ([{ date := 0, value := 7 }] : List HistoricalPoint).length < 5 ∧
      (ForecastService.generate_advanced_forecast
          [{ date := 0, value := 7 }] params00).1
        = generate_basic_forecast [{ date := 0, value := 7 }] params00 :=
  ⟨by decide,
    C5_advanced_small_history_is_basic [{ date := 0, value := 7 }] params00 (by decide)⟩

/-- C7: the basic forecast on an empty history projects exactly 0.0
everywhere, without confidence bounds. -/
theorem C7_basic_empty_history_zero (params : ForecastParameters) :
    ∀ p ∈ generate_basic_forecast [] params,
      p.value = PF.fin 0 ∧ p.confidence_lower = none ∧ p.confidence_upper = none := by
  intro p hp
  rw [generate_basic_forecast] at hp
  rcases List.mem_map.mp hp with ⟨d, _, rfl⟩
  exact ⟨rfl, rfl, rfl⟩

/-- Witness for C7 at the one-day window. -/
theorem C7_witness :
    basicPoint [] 0 ∈ generate_basic_forecast [] params00 ∧
      ((basicPoint [] 0).value = PF.fin 0 ∧
        (basicPoint [] 0).confidence_lower = none ∧
        (basicPoint [] 0).confidence_upper = none) :=
  ⟨by decide, C7_basic_empty_history_zero params00 _ (by decide)⟩

/-- C8: the basic forecast on a non-empty history projects the
arithmetic mean of the historical values, the same constant on every
output point. -/
theorem C8_basic_nonempty_history_mean (hist : List HistoricalPoint)
    (params : ForecastParameters) (h : hist ≠ []) :
    ∀ p ∈ generate_basic_forecast hist params,
      p.value = PF.fin ((hist.map (·.value)).sum / (hist.length : ℚ)) := by
  intro p hp
  rw [generate_basic_forecast] at hp
  rcases List.mem_map.mp hp with ⟨d, _, rfl⟩
  have hlen : ((hist.length : ℚ)) ≠ 0 :=
    (Nat.cast_ne_zero (R := ℚ)).mpr (List.length_pos.mpr h).ne'
  have hne : hist.isEmpty = false := by
    cases hist with
    | nil => exact absurd rfl h
    | cons a t => rfl
  simp [basicPoint, basicForecastValue, hne, PF.div, hlen]

/-- Witness for C8 on a two-row history. -/
theorem C8_witness :
    ([{ date := 0, value := 2 }, { date := 1, value := 4 }] : List HistoricalPoint) ≠ [] ∧
      basicPoint [{ date := 0, value := 2 }, { date := 1, value := 4 }] 0 ∈
        generate_basic_forecast
          [{ date := 0, value := 2 }, { date := 1, value := 4 }] params00 ∧
      (basicPoint [{ date := 0, value := 2 }, { date := 1, value := 4 }] 0).value
        = PF.fin
            ((([{ date := 0, value := 2 }, { date := 1, value := 4 }]
                : List HistoricalPoint).map (·.value)).sum
              / (([{ date := 0, value := 2 }, { date := 1, value := 4 }]
                : List HistoricalPoint).length : ℚ)) := by
  refine ⟨by decide, by simp [generate_basic_forecast, params00, dateRange], ?_⟩
  exact C8_basic_nonempty_history_mean _ params00 (by decide) _
    (by simp [generate_basic_forecast, params00, dateRange])

/-- C9: the semantic output is deterministic: two invocations with the
same history and parameters produce equal data_points sequences even
when the bookkeeping inputs behind id and created_at differ. -/
theorem C9_data_points_deterministic (hist : List HistoricalPoint)
    (params : ForecastParameters) (n1 n2 : Int) (u1 u2 : String) :
    (ForecastService.get_forecasts hist params n1 u1).data_points
      = (ForecastService.get_forecasts hist params n2 u2).data_points := by
  rw [ForecastService.get_forecasts, ForecastService.get_forecasts]
  unfold ForecastService.basic_forecast_response ForecastService.advanced_forecast_response
  split_ifs <;> rfl

theorem basic_response_data_points (hist : List HistoricalPoint)
    (params : ForecastParameters) (n : Int) (u : String) :
    (ForecastService.basic_forecast_response hist params n u).data_points
      = generate_basic_forecast hist params := rfl

theorem advanced_response_data_points (hist : List HistoricalPoint)
    (params : ForecastParameters) (n : Int) (u : String) :
    (ForecastService.advanced_forecast_response hist params n u).data_points
      = (ForecastService.generate_advanced_forecast hist params).1 := by
  rw [ForecastService.advanced_forecast_response,
    ForecastService.generate_advanced_forecast]
  split <;> rfl

theorem basic_points_not_actual (hist : List HistoricalPoint)
    (params : ForecastParameters) :
    ∀ p ∈ generate_basic_forecast hist params, p.is_actual = false := by
  intro p hp
  rw [generate_basic_forecast] at hp
  rcases List.mem_map.mp hp with ⟨d, _, rfl⟩
  rfl

theorem advanced_points_not_actual (hist : List HistoricalPoint)
    (params : ForecastParameters) :
    ∀ p ∈ (ForecastService.generate_advanced_forecast hist params).1,
      p.is_actual = false := by
  intro p hp
  rcases advanced_points_eq_map hist params with hm | hm <;> rw [hm] at hp <;>
    rcases List.mem_map.mp hp with ⟨d, _, rfl⟩
  · rfl
  · rw [ForecastService.advancedPoint]
    split <;> rfl

theorem get_forecasts_data_points (hist : List HistoricalPoint)
    (params : ForecastParameters) (n : Int) (u : String) :
    (ForecastService.get_forecasts hist params n u).data_points
      = if params.forecast_type = "basic" then generate_basic_forecast hist params
        else if params.forecast_type = "advanced" then
          (ForecastService.generate_advanced_forecast hist params).1
        else if params.forecast_type = "predictive" then
          (ForecastService.generate_advanced_forecast hist params).1
        else generate_basic_forecast hist params := by
  rw [ForecastService.get_forecasts]
  split_ifs <;>
    first
      | rw [basic_response_data_points]
      | rw [advanced_response_data_points]

/-- C10: the include_historical flag is accepted but never read: it does
not change the computed data points, every emitted point carries
is_actual = false, and (by C1's shape) only projected days appear. -/
theorem C10_include_historical_ignored (hist : List HistoricalPoint)
    (params : ForecastParameters) (b : Bool) (n : Int) (u : String) :
    (ForecastService.get_forecasts hist
        { params with include_historical := b } n u).data_points
        = (ForecastService.get_forecasts hist params n u).data_points ∧
      ∀ p ∈ (ForecastService.get_forecasts hist params n u).data_points,
        p.is_actual = false := by
  constructor
  · cases params
    rw [get_forecasts_data_points, get_forecasts_data_points]
    rfl
  · intro p hp
    rw [ForecastService.get_forecasts] at hp
    split_ifs at hp <;>
      first
        | exact basic_points_not_actual hist params p
            (by rwa [basic_response_data_points] at hp)
        | exact advanced_points_not_actual hist params p
            (by rwa [advanced_response_data_points] at hp)

/-- Witness for C10 at the one-day window with empty history. -/
theorem C10_witness :
    (ForecastService.get_forecasts []
        { params00 with include_historical := true } 0 "a").data_points
        = (ForecastService.get_forecasts [] params00 0 "a").data_points ∧
      (basicPoint [] 0).is_actual = false :=
  ⟨(C10_include_historical_ignored [] params00 true 0 "a").1,
    (C10_include_historical_ignored [] params00 true 0 "a").2 _ (by decide)⟩

/-- C3 (refuted by the code): the pydantic model declares no range
validators, so constructing ForecastParameters with end_date strictly
before start_date, or with confidence_level outside [0, 1], succeeds
with no ValidationError — although the repository's own schema tests
expect the error. -/
theorem C3_construction_accepts_invalid_parameters :
    mkForecastParameters 1 0 none none "basic" false none
        = Except.ok { start_date := 1, end_date := 0 } ∧
      mkForecastParameters 0 1 none none "basic" false (some (3 / 2))
        = Except.ok { start_date := 0, end_date := 1, confidence_level := some (3 / 2) } :=
  ⟨rfl, rfl⟩

/-- C6 (counterexample): on a frame of 5 rows the advanced path hands
back a frame that differs from the one it was given — line 148 added
the days column in place. -/
theorem C6_counterexample_advanced_mutates_history :
    (ForecastService.generate_advanced_forecast histLinear5 params00).2
      ≠ histLinear5 := by decide

/-- C6 (amended): the engine never changes the columns the data source
produced (date, value, sales_rep_id, category), and the basic path
leaves the frame entirely unchanged; but the advanced and predictive
paths, when at least 5 rows are present, add a derived days column to
the caller's frame in place. -/
theorem C6_amended_engine_preserves_source_columns
    (hist : List HistoricalPoint) (params : ForecastParameters) :
    (generate_basic_forecast_st hist params).2 = hist ∧
      ((ForecastService.generate_advanced_forecast hist params).2).map originalColumns
        = hist.map originalColumns ∧
      ((ForecastService.generate_predictive_forecast hist params).2).map originalColumns
        = hist.map originalColumns := by
  have key :
      ((ForecastService.generate_advanced_forecast hist params).2).map originalColumns
        = hist.map originalColumns := by
    rw [ForecastService.generate_advanced_forecast]
    split
    · rfl
    · rw [ForecastService.addDaysColumn]
      simp only [List.map_map]
      rfl
  exact ⟨rfl, key, key⟩

/-- C2 (refuting the fallback the spec requires): on 5 rows whose dates
all coincide the advanced path does not fall back to basic — the slope
division is 0/0, so every projected value is NaN, while the basic
strategy would have projected the finite mean 3. -/
theorem C2_advanced_nan_on_identical_dates :
    (ForecastService.generate_advanced_forecast histSameDate5 params00).1
        = [{ date := 0, value := PF.nan, is_actual := false }] ∧
      generate_basic_forecast histSameDate5 params00
        = [{ date := 0, value := PF.fin 3, is_actual := false }] := by
  have hdr : dateRange 0 0 = [0] := by decide
  constructor
  · norm_num [ForecastService.generate_advanced_forecast, histSameDate5, params00,
      hdr, ForecastService.advancedPoint, ForecastService.confidenceRequested,
      ForecastService.advForecastValue, ForecastService.intercept,
      ForecastService.slope, ForecastService.slopeNum, ForecastService.slopeDen,
      ForecastService.meanX, ForecastService.meanY, ForecastService.regressionX,
      ForecastService.regressionY, ForecastService.addDaysColumn,
      ForecastService.minHistDate, PF.div, PF.mul, PF.add, PF.sub]
  · norm_num [generate_basic_forecast, histSameDate5, params00, hdr,
      basicPoint, basicForecastValue, PF.div]

theorem regressionX_eq (hist : List HistoricalPoint) :
    ForecastService.regressionX hist
      = hist.map fun r => ((r.date - ForecastService.minHistDate hist : Int) : ℚ) := by
  rw [ForecastService.regressionX, ForecastService.addDaysColumn]
  simp only [List.map_map]
  rfl

theorem regressionX_length (hist : List HistoricalPoint) :
    (ForecastService.regressionX hist).length = hist.length := by
  rw [regressionX_eq, List.length_map]

theorem regressionY_length (hist : List HistoricalPoint) :
    (ForecastService.regressionY hist).length = hist.length := by
  rw [ForecastService.regressionY, List.length_map]

theorem slope_fin (hist : List HistoricalPoint)
    (hden : ForecastService.slopeDen hist ≠ 0) :
    ForecastService.slope hist
      = PF.fin (ForecastService.slopeNum hist / ForecastService.slopeDen hist) := by
  rw [ForecastService.slope]
  simp [PF.div, hden]

theorem intercept_fin (hist : List HistoricalPoint)
    (hden : ForecastService.slopeDen hist ≠ 0) :
    ForecastService.intercept hist
      = PF.fin (ForecastService.meanY hist
          - ForecastService.slopeNum hist / ForecastService.slopeDen hist
            * ForecastService.meanX hist) := by
  rw [ForecastService.intercept, slope_fin hist hden]
  simp [PF.mul, PF.sub]

theorem advForecastValue_fin (hist : List HistoricalPoint)
    (hden : ForecastService.slopeDen hist ≠ 0) (d : Int) :
    ForecastService.advForecastValue hist d
      = PF.fin ((ForecastService.meanY hist
            - ForecastService.slopeNum hist / ForecastService.slopeDen hist
              * ForecastService.meanX hist)
          + ForecastService.slopeNum hist / ForecastService.slopeDen hist
            * ((d - ForecastService.minHistDate hist : Int) : ℚ)) := by
  rw [ForecastService.advForecastValue, slope_fin hist hden, intercept_fin hist hden]
  simp [PF.mul, PF.add]

theorem residuals_map_fin (hist : List HistoricalPoint)
    (hden : ForecastService.slopeDen hist ≠ 0) :
    ForecastService.residuals hist
      = (((ForecastService.regressionX hist).zip (ForecastService.regressionY hist)).map
          fun p => p.2 - ((ForecastService.meanY hist
              - ForecastService.slopeNum hist / ForecastService.slopeDen hist
                * ForecastService.meanX hist)
            + ForecastService.slopeNum hist / ForecastService.slopeDen hist * p.1)).map
        PF.fin := by
  rw [ForecastService.residuals, slope_fin hist hden, intercept_fin hist hden]
  simp only [List.map_map]
  simp [PF.mul, PF.add, PF.sub, Function.comp]

/-- np.std of a list of finite floats is a finite nonnegative value
(modelled through ratSqrt of the nonnegative variance). -/
theorem pfStd_map_fin (l : List ℚ) (h : l ≠ []) :
    ∃ v : ℚ, 0 ≤ v ∧ pfStd (l.map PF.fin) = PF.fin (ratSqrt v) := by
  have hlen : ((l.length : ℚ)) ≠ 0 :=
    (Nat.cast_ne_zero (R := ℚ)).mpr (List.length_pos.mpr h).ne'
  set mu := l.sum / (l.length : ℚ) with hmu
  have hmean : pfMean (l.map PF.fin) = PF.fin mu := pfMean_map_fin l h
  have hinner :
      (l.map PF.fin).map (fun r =>
          PF.mul (PF.sub r (pfMean (l.map PF.fin))) (PF.sub r (pfMean (l.map PF.fin))))
        = (l.map fun x => (x - mu) ^ 2).map PF.fin := by
    rw [hmean]
    simp only [List.map_map]
    simp [PF.sub, PF.mul, Function.comp, sq]
  have hne2 : (l.map fun x => (x - mu) ^ 2) ≠ [] := by
    simpa using h
  have hvar :
      pfMean ((l.map fun x => (x - mu) ^ 2).map PF.fin)
        = PF.fin ((l.map fun x => (x - mu) ^ 2).sum
            / (((l.map fun x => (x - mu) ^ 2).length : ℚ))) :=
    pfMean_map_fin _ hne2
  refine ⟨(l.map fun x => (x - mu) ^ 2).sum
      / (((l.map fun x => (x - mu) ^ 2).length : ℚ)), ?_, ?_⟩
  · exact div_nonneg (sum_sq_nonneg l _) (Nat.cast_nonneg _)
  · rw [pfStd]
    rw [hinner, hvar, PF.sqrtPF]
    rw [if_neg (not_lt.mpr (div_nonneg (sum_sq_nonneg l _) (Nat.cast_nonneg _)))]

/-- With at least two rows and pairwise distinct dates, the regression
denominator (the sum of squared deviations of the day offsets) cannot
vanish. -/
theorem slopeDen_ne_zero (hist : List HistoricalPoint)
    (h5 : 5 ≤ hist.length)
    (hd : (hist.map (·.date)).Pairwise (· ≠ ·)) :
    ForecastService.slopeDen hist ≠ 0 := by
  intro h0
  rw [ForecastService.slopeDen] at h0
  have hall : ∀ x ∈ ForecastService.regressionX hist, x - ForecastService.meanX hist = 0 :=
    sum_sq_eq_zero _ _ h0
  cases hist with
  | nil => simp at h5
  | cons a t =>
    cases t with
    | nil => simp at h5
    | cons b t' =>
      have hab : a.date ≠ b.date := by
        rw [List.map_cons, List.map_cons, List.pairwise_cons] at hd
        exact hd.1 b.date (List.mem_cons_self _ _)
      set m := ForecastService.minHistDate (a :: b :: t') with hm
      have hxa : ((a.date - m : Int) : ℚ) ∈ ForecastService.regressionX (a :: b :: t') := by
        rw [regressionX_eq]
        exact List.mem_map_of_mem _ (List.mem_cons_self _ _)
      have hxb : ((b.date - m : Int) : ℚ) ∈ ForecastService.regressionX (a :: b :: t') := by
        rw [regressionX_eq]
        exact List.mem_map_of_mem _ (List.mem_cons_of_mem _ (List.mem_cons_self _ _))
      have e1 := hall _ hxa
      have e2 := hall _ hxb
      have : ((a.date - m : Int) : ℚ) = ((b.date - m : Int) : ℚ) := by linarith
      have : (a.date - m : Int) = (b.date - m : Int) := by exact_mod_cast this
      exact hab (by omega)

/-- C4 (amended: the guard is Python truthiness, so the confidence level
must be non-null and nonzero): with at least 5 rows on pairwise distinct
dates and a nonzero confidence_level, the advanced forecast attaches to
every point the same finite margin, confidence_lower = value - margin
and confidence_upper = value + margin, so every point satisfies
confidence_lower <= value <= confidence_upper with all three finite. -/
theorem C4_advanced_confidence_bounds (hist : List HistoricalPoint)
    (params : ForecastParameters) (c : ℚ)
    (h5 : 5 ≤ hist.length)
    (hd : (hist.map (·.date)).Pairwise (· ≠ ·))
    (hc : params.confidence_level = some c) (hc0 : c ≠ 0) :
    ∃ m : ℚ, 0 ≤ m ∧ PF.fin m = ForecastService.margin hist ∧
      ∀ p ∈ (ForecastService.generate_advanced_forecast hist params).1,
        ∃ v : ℚ, p.value = PF.fin v ∧
          p.confidence_lower = some (PF.fin (v - m)) ∧
          p.confidence_upper = some (PF.fin (v + m)) ∧
          v - m ≤ v ∧ v ≤ v + m := by
  have hden : ForecastService.slopeDen hist ≠ 0 := slopeDen_ne_zero hist h5 hd
  have hreq : ForecastService.confidenceRequested params = true := by
    rw [ForecastService.confidenceRequested, hc]
    simpa using hc0
  have hzip : ((ForecastService.regressionX hist).zip
      (ForecastService.regressionY hist)).length = hist.length := by
    rw [List.length_zip, regressionX_length, regressionY_length, Nat.min_self]
  have hrne : (((ForecastService.regressionX hist).zip
      (ForecastService.regressionY hist)).map
        fun p => p.2 - ((ForecastService.meanY hist
            - ForecastService.slopeNum hist / ForecastService.slopeDen hist
              * ForecastService.meanX hist)
          + ForecastService.slopeNum hist / ForecastService.slopeDen hist * p.1)) ≠ [] := by
    intro hnil
    have hlen := congrArg List.length hnil
    rw [List.length_map, hzip, List.length_nil] at hlen
    omega
  obtain ⟨v, hv0, hstd⟩ := pfStd_map_fin _ hrne
  have hstdE : ForecastService.stdError hist = PF.fin (ratSqrt v) := by
    rw [ForecastService.stdError, residuals_map_fin hist hden]
    exact hstd
  have hmq : 0 ≤ 49 / 25 * ratSqrt v :=
    mul_nonneg (by norm_num) (ratSqrt_nonneg v)
  refine ⟨49 / 25 * ratSqrt v, hmq, ?_, ?_⟩
  · rw [ForecastService.margin, hstdE]
    simp [PF.mul]
  · intro p hp
    have hcond : ¬(hist.isEmpty = true ∨ hist.length < 5) := by
      rintro (he | hl)
      · rw [List.isEmpty_iff] at he
        subst he
        simp at h5
      · omega
    rw [ForecastService.generate_advanced_forecast] at hp
    rw [if_neg (by simpa using hcond)] at hp
    rcases List.mem_map.mp hp with ⟨d, _, rfl⟩
    refine ⟨(ForecastService.meanY hist
        - ForecastService.slopeNum hist / ForecastService.slopeDen hist
          * ForecastService.meanX hist)
        + ForecastService.slopeNum hist / ForecastService.slopeDen hist
          * ((d - ForecastService.minHistDate hist : Int) : ℚ), ?_, ?_, ?_, ?_, ?_⟩
    · rw [ForecastService.advancedPoint]
      simp only [hreq, if_true]
      exact advForecastValue_fin hist hden d
    · rw [ForecastService.advancedPoint]
      simp only [hreq, if_true]
      rw [advForecastValue_fin hist hden d, ForecastService.margin, hstdE]
      simp [PF.mul, PF.sub]
    · rw [ForecastService.advancedPoint]
      simp only [hreq, if_true]
      rw [advForecastValue_fin hist hden d, ForecastService.margin, hstdE]
      simp [PF.mul, PF.add]
    · linarith
    · linarith

/-- C4 (counterexample): confidence_level = 0.0 is non-null, yet the
truthiness guard "if params.confidence_level:" skips the confidence
computation, so no bounds are attached. -/
theorem C4_counterexample_zero_confidence_level :
    ((ForecastService.generate_advanced_forecast histLinear5 params00conf0).1).map
        (·.confidence_lower) = [none] := by
  have hdr : dateRange 0 0 = [0] := by decide
  simp [ForecastService.generate_advanced_forecast, histLinear5, params00conf0,
    hdr, ForecastService.advancedPoint, ForecastService.confidenceRequested]

/-- Witness for C4 on five linearly rising rows with confidence 0.95. -/
theorem C4_witness :
    5 ≤ histLinear5.length ∧
      (histLinear5.map (·.date)).Pairwise (· ≠ ·) ∧
      params00conf95.confidence_level = some (19 / 20) ∧
      ((19 : ℚ) / 20) ≠ 0 ∧
      (∃ m : ℚ, 0 ≤ m ∧ PF.fin m = ForecastService.margin histLinear5 ∧
        ∀ p ∈ (ForecastService.generate_advanced_forecast histLinear5 params00conf95).1,
          ∃ v : ℚ, p.value = PF.fin v ∧
            p.confidence_lower = some (PF.fin (v - m)) ∧
            p.confidence_upper = some (PF.fin (v + m)) ∧
            v - m ≤ v ∧ v ≤ v + m) :=
  ⟨by decide, by decide, rfl, by norm_num,
    C4_advanced_confidence_bounds histLinear5 params00conf95 (19 / 20)
      (by decide) (by decide) rfl (by norm_num)⟩
